import Mathlib

/-!
Verification of the diagnostic core of the `reframe` framework
(`reframe/core/exceptions.py` and `reframe/core/warnings.py`):
the error taxonomy with causal chaining, the cause-chain formatter
(`ReframeBaseError.__str__`), the stack walker (`user_frame`), the
severity classifier (`is_severe`), the description generator (`what`)
and the deprecation emitter (`user_deprecation_warning`).

Modelling conventions:
* File-system paths are modelled as their component lists (the result of
  splitting on `os.sep`); `os.path.relpath` on absolute normalized paths
  becomes `Exc.relpath` on component lists.
* Python exceptions that functions may raise are modelled with
  `Except String` results; the raised `ValueError` message is the payload.
* `isinstance` tests against the exception class hierarchy are modelled by
  boolean predicates over the enumerated kind `ExcKind`.
-/

deriving instance DecidableEq for Except

namespace Exc

/-! ### Path model: `os.path.relpath(path, start)` on component lists -/

/-- Length of the longest common prefix of two component lists
(the common leading directories of two absolute normalized paths). -/
def commonPrefixLen : List String → List String → Nat
  | a :: as, b :: bs => if a = b then commonPrefixLen as bs + 1 else 0
  | _, _ => 0

/-- `os.path.relpath(path, start)` for absolute normalized paths given as
component lists: drop the common leading directories, prepend one `..` for
each remaining component of `start`; an empty result is `os.curdir`. -/
def relpath (path start : List String) : List String :=
  let n := commonPrefixLen start path
  let r := List.replicate (start.length - n) ".." ++ path.drop n
  if r = [] then ["."] else r

/-- `relpath(path, start).split(os.sep)[0]`: the first component of the
relative path. -/
def relpathHead (path start : List String) : String :=
  (relpath path start).headD "."

/-! ### Stack walker: `user_frame` -/

/-- One entry of `inspect.getinnerframes`: the fields the module reads
(`filename` as a component list, `lineno`, `code_context`). -/
structure FrameInfo where
  filename : List String
  lineno : Nat
  codeContext : List String
  deriving DecidableEq, Repr

/-- The third argument of `user_frame`/`is_severe`/`what`: either an actual
traceback (whose `inspect.getinnerframes` listing goes from outermost to
innermost frame) or any non-traceback value, which `inspect.istraceback`
rejects. -/
inductive PyTb where
  | traceback (frames : List FrameInfo)
  | notATraceback
  deriving DecidableEq, Repr

/-- Does the frame's file belong to the framework? `user_frame` keeps a
frame exactly when `os.path.relpath(finfo.filename, sys.path[0])` does not
start with the `reframe` component. `sysPath0` is `sys.path[0]`. -/
def isReframeFile (sysPath0 : List String) (filename : List String) : Bool :=
  relpathHead filename sysPath0 = "reframe"

/-- `user_frame(exc_type, exc_value, tb)`: validate that `tb` is a
traceback, then scan `reversed(inspect.getinnerframes(tb))` — i.e. from the
innermost frame outwards — for the first frame whose file lies outside the
`reframe` module tree.  (`exc_type` and `exc_value` are unused by the
source function and omitted here.) -/
def user_frame (sysPath0 : List String) (tb : PyTb) :
    Except String (Option FrameInfo) :=
  match tb with
  | .notATraceback =>
      .error "could not retrieve frame: argument not a traceback"
  | .traceback frames =>
      .ok (frames.reverse.find? (fun f => !isReframeFile sysPath0 f.filename))

/-! ### Error taxonomy and the severity classifier -/

/-- The exception kinds the module distinguishes: every class declared in
`reframe/core/exceptions.py`, the built-in exception classes that
`is_severe`/`what` test for with `isinstance`, and a catch-all for any
other exception. -/
inductive ExcKind where
  | reframeError
  | reframeFatalError
  | reframeSyntaxError
  | regressionTestLoadError
  | nameConflictError
  | taskExit
  | taskDependencyError
  | abortTaskError
  | configError
  | loggingError
  | environError
  | sanityError
  | performanceError
  | pipelineError
  | reframeForceExitError
  | statisticsError
  | buildSystemError
  | containerError
  | buildError
  | spawnedProcessError
  | spawnedProcessTimeout
  | jobSchedulerError
  | jobError
  | jobBlockedError
  | jobNotStartedError
  | dependencyError
  | connectionError
  | fileExistsError
  | fileNotFoundError
  | isADirectoryError
  | keyboardInterrupt
  | notADirectoryError
  | permissionError
  | timeoutError
  | typeError
  | valueError
  | otherException
  deriving DecidableEq, Repr

/-- `isinstance(exc_value, ReframeError)`: `ReframeError` itself and all of
its subclasses.  `ReframeFatalError` derives from `ReframeBaseError`
directly, not from `ReframeError`. -/
def isReframeError : ExcKind → Bool
  | .reframeError | .reframeSyntaxError | .regressionTestLoadError
  | .nameConflictError | .taskExit | .taskDependencyError
  | .abortTaskError | .configError | .loggingError | .environError
  | .sanityError | .performanceError | .pipelineError
  | .reframeForceExitError | .statisticsError | .buildSystemError
  | .containerError | .buildError | .spawnedProcessError
  | .spawnedProcessTimeout | .jobSchedulerError | .jobError
  | .jobBlockedError | .jobNotStartedError | .dependencyError => true
  | _ => false

/-- `isinstance(exc_value, soft_errors)` for the tuple built inside
`is_severe`: `ReframeError` plus the eight recoverable built-in OS-level
exception classes. -/
def isSoftClassified (k : ExcKind) : Bool :=
  isReframeError k ||
    match k with
    | .connectionError | .fileExistsError | .fileNotFoundError
    | .isADirectoryError | .keyboardInterrupt | .notADirectoryError
    | .permissionError | .timeoutError => true
    | _ => false

/-- The kinds the spec's severity clause enumerates as unconditionally
not severe: every Soft-category (`ReframeError`-derived) kind, plus the
eight recoverable OS-level conditions. -/
def softKinds : List ExcKind :=
  [.reframeError, .reframeSyntaxError, .regressionTestLoadError,
   .nameConflictError, .taskExit, .taskDependencyError, .abortTaskError,
   .configError, .loggingError, .environError, .sanityError,
   .performanceError, .pipelineError, .reframeForceExitError,
   .statisticsError, .buildSystemError, .containerError, .buildError,
   .spawnedProcessError, .spawnedProcessTimeout, .jobSchedulerError,
   .jobError, .jobBlockedError, .jobNotStartedError, .dependencyError,
   .connectionError, .fileExistsError, .fileNotFoundError,
   .isADirectoryError, .keyboardInterrupt, .notADirectoryError,
   .permissionError, .timeoutError]

/-- `is_severe(exc_type, exc_value, tb)`: soft-classified exceptions are
not severe; otherwise `user_frame` is consulted (and its `ValueError`
propagates), and a type or value error attributed to a user frame is not
severe; everything else is severe. -/
def is_severe (sysPath0 : List String) (k : ExcKind) (tb : PyTb) :
    Except String Bool :=
  if isSoftClassified k then .ok false
  else
    let type_error := k == ExcKind.typeError
    let value_error := k == ExcKind.valueError
    match user_frame sysPath0 tb with
    | .error e => .error e
    | .ok frame =>
        if (type_error || value_error) && frame.isSome then .ok false
        else .ok true

/-! ### Cause-chain formatter: `ReframeBaseError.__str__` -/

/-- Python's `sep.join(parts)`. -/
def pyJoin (sep : String) : List String → String
  | [] => ""
  | [part] => part
  | part :: rest => part ++ sep ++ pyJoin sep rest

/-- An error as the formatter sees it: `self._message` (possibly `None`)
and the `__cause__` chain.  Lean's inductive type captures exactly the
acyclic chains that the append-only construction discipline produces. -/
inductive RfError where
  | mk (message : Option String) (cause : Option RfError)

/-- `self._message or ''`: `None` and the empty string are both falsy. -/
def orEmpty : Option String → String
  | none => ""
  | some s => if s = "" then "" else s

/-- `ReframeBaseError.__str__`: the error's own message (or `''`), and if a
cause is present, `': ' + str(self.__cause__)` appended. -/
def strOf : RfError → String
  | .mk message cause =>
      orEmpty message ++
        match cause with
        | none => ""
        | some c => ": " ++ strOf c

/-- The messages along an error's cause chain, outermost first. -/
def chainMessages : RfError → List String
  | .mk message cause =>
      orEmpty message ::
        match cause with
        | none => []
        | some c => chainMessages c

/-- The spec's global reading of the chain rendering: all the messages of
the chain, joined with `": "`. -/
def joinMessages (msgs : List String) : String := pyJoin ": " msgs

/-! ### Heap model of `__str__` for possibly-cyclic `__cause__` graphs

In Python `__cause__` is an arbitrary object reference, so a
self-referential chain is representable even though the module never
builds one.  Here an error object is an entry of a heap (a partial map
from object ids), `__cause__` is an id, and one unit of fuel is one
recursive `str` call: a result of `none` for every amount of fuel means
the recursion never bottoms out. -/

/-- An error object on the heap: its message and the id of its cause. -/
structure ExcObj where
  message : Option String
  causeId : Option Nat
  deriving DecidableEq, Repr

/-- `ReframeBaseError.__str__` over a heap, with fuel bounding the
recursion depth.  `none` means the fuel ran out (or a dangling id). -/
def strFuel (heap : Nat → Option ExcObj) : Nat → Nat → Option String
  | 0, _ => none
  | fuel + 1, i =>
      match heap i with
      | none => none
      | some o =>
          match o.causeId with
          | none => some (orEmpty o.message)
          | some j =>
              (strFuel heap fuel j).map
                (fun s => orEmpty o.message ++ ": " ++ s)

/-- The heap of a single error whose `__cause__` is itself. -/
def selfCauseHeap : Nat → Option ExcObj := fun i =>
  if i = 0 then some ⟨some "boom", some 0⟩ else none

/-- Lay an acyclic chain of messages out on a heap: object `i` carries the
`i`-th message and its cause is object `i + 1`, except for the last. -/
def chainHeap (msgs : List (Option String)) : Nat → Option ExcObj := fun i =>
  match msgs.get? i with
  | none => none
  | some m => some ⟨m, if i + 1 < msgs.length then some (i + 1) else none⟩

/-! ### Message synthesis: `BuildError` and `SpawnedProcessError` -/

/-- Split a character list at every `%s` marker (the pieces between the
conversions of a `%s`-only format template). -/
def splitPercentS : List Char → List (List Char)
  | [] => [[]]
  | '%' :: 's' :: rest => [] :: splitPercentS rest
  | c :: rest =>
      match splitPercentS rest with
      | [] => [[c]]
      | p :: ps => (c :: p) :: ps

/-- The fixed pieces of a `%s`-only template, as strings. -/
def templatePieces (tmpl : String) : List String :=
  (splitPercentS tmpl.data).map String.mk

/-- Interleave the fixed pieces of a template with the interpolated
arguments. -/
def interleaveArgs : List String → List String → String
  | [], _ => ""
  | piece :: pieces, [] => piece ++ interleaveArgs pieces []
  | piece :: pieces, arg :: args =>
      piece ++ arg ++ interleaveArgs pieces args

/-- Python's `%s`-interpolation `tmpl % args`, for templates whose only
conversions are `%s`. -/
def pyFormat (tmpl : String) (args : List String) : String :=
  interleaveArgs (templatePieces tmpl) args

/-- `BuildError.__init__(stdout, stderr)` sets `self._message` to the
template interpolated with `(stderr, stdout)` — in that order; the
constructor accepts no message argument. -/
def buildErrorMessage (stdout stderr : String) : String :=
  pyFormat
    "standard error can be found in `%s', standard output can be found in `%s'"
    [stderr, stdout]

/-- The `args` parameter of `SpawnedProcessError.__init__`: a command
string or an argument list. -/
inductive CmdArgs where
  | str (s : String)
  | list (l : List String)
  deriving DecidableEq, Repr

/-- `self._command`: the string itself, or the list joined with spaces. -/
def commandOf : CmdArgs → String
  | .str s => s
  | .list l => pyJoin " " l

/-- `f'{self.exitcode}'` where the exit code may be `None`. -/
def showExitcode : Option Int → String
  | none => "None"
  | some n => toString n

/-- The message built by `SpawnedProcessError.__init__`: a header line with
the command and exit code, then the `=== STDOUT ===` marker, the stdout
text only when non-empty, the `=== STDERR ===` marker, and the stderr text
only when non-empty, all joined with newlines. -/
def spawnedProcessMessage (args : CmdArgs) (stdout stderr : String)
    (exitcode : Option Int) : String :=
  let header :=
    "command '" ++ commandOf args ++ "' failed with exit code " ++
      showExitcode exitcode ++ ":"
  pyJoin "\n"
    ([header, "=== STDOUT ==="] ++
      (if stdout ≠ "" then [stdout] else []) ++
      ["=== STDERR ==="] ++
      (if stderr ≠ "" then [stderr] else []))

/-- The claim's reading of the spawned-process message, for comparison: a
`=== STDOUT ===` section included *only if* stdout is non-empty (marker
and all), and a `=== STDERR ===` section always present with conditional
content. -/
def spawnedMessageClaimed (args : CmdArgs) (stdout stderr : String)
    (exitcode : Option Int) : String :=
  let header :=
    "command '" ++ commandOf args ++ "' failed with exit code " ++
      showExitcode exitcode ++ ":"
  pyJoin "\n"
    ([header] ++
      (if stdout ≠ "" then ["=== STDOUT ===", stdout] else []) ++
      ["=== STDERR ==="] ++
      (if stderr ≠ "" then [stderr] else []))

/-! ### Description generator: `what` -/

/-- Modelled from the spec: `reframe.utility.decamelize` is imported from
`reframe/utility`, which is not among the provided sources.  The spec
describes its use as building "a lowercase, space-separated decamelized
form of the error's kind name", so each upper-case letter is lower-cased
and, when not the first character, preceded by the separator. -/
def decamelize (s : String) (sep : String) : String :=
  (s.data.foldl
    (fun acc c =>
      if c.isUpper then
        (if acc = "" then acc else acc ++ sep) ++ (c.toLower).toString
      else acc ++ c.toString)
    "")

/-- The pieces of `(exc_type, exc_value)` that `what` reads:
`exc_type.__name__`, the kind for the `isinstance` tests, `str(exc_value)`
and `type(exc_value.__cause__).__name__` (read in the abort-task
branch). -/
structure PyExcVal where
  typeName : String
  kind : ExcKind
  strVal : String
  causeTypeName : String
  deriving DecidableEq, Repr

/-- `os.sep.join`, rendering a component list back into a path string. -/
def pathStr (l : List String) : String := pyJoin "/" l

/-- `what(exc_type, exc_value, tb)`: empty for no exception; otherwise the
decamelized type name, specialised for keyboard interrupts, abort-task
errors, and type/value errors attributable to a user frame (where the
relative path — against the working directory `cwd` — the line number, the
message and the source context are appended); in all remaining cases a
non-empty `str(exc_value)` is appended.  `user_frame` is consulted
unconditionally and its validation error propagates. -/
def what (sysPath0 cwd : List String) (exc : Option PyExcVal) (tb : PyTb) :
    Except String String :=
  match exc with
  | none => .ok ""
  | some e =>
      let reason := decamelize e.typeName " "
      match user_frame sysPath0 tb with
      | .error err => .error err
      | .ok frame =>
          let user_type_error := e.kind == ExcKind.typeError && frame.isSome
          let user_value_error := e.kind == ExcKind.valueError && frame.isSome
          if e.kind == ExcKind.keyboardInterrupt then
            .ok "cancelled by user"
          else if e.kind == ExcKind.abortTaskError then
            .ok ("aborted due to " ++ e.causeTypeName)
          else if user_type_error || user_value_error then
            match frame with
            | some f =>
                .ok (reason ++ ": " ++ pathStr (relpath f.filename cwd) ++
                  ":" ++ toString f.lineno ++ ": " ++ e.strVal ++ "\n" ++
                  String.join f.codeContext)
            | none => .ok reason
          else if e.strVal ≠ "" then
            .ok (reason ++ ": " ++ e.strVal)
          else
            .ok reason

/-! ### Deprecation emitter: `user_deprecation_warning`

`inspect.stack()` lists the caller's stack innermost-first, starting with
the frame of `user_deprecation_warning` itself; each entry is modelled by
what the loop reads from it: the enclosing module's `__name__`, or `none`
when `inspect.getmodule` returns `None`. -/

/-- Is the frame's enclosing module part of the framework?  The loop
continues while `module is not None and module.__name__.startswith('reframe')`. -/
def isReframeModule : Option String → Bool
  | none => false
  | some name => List.isPrefixOf "reframe".data name.data

/-- The `stacklevel` computed by `user_deprecation_warning`: starting from
1, one more for every leading stack frame whose module is part of the
framework; the loop breaks at the first non-framework frame. -/
def deprecationStackLevel : List (Option String) → Nat
  | [] => 1
  | m :: rest =>
      if isReframeModule m then deprecationStackLevel rest + 1 else 1

/-- The frame that `warnings.warn(msg, cat, stacklevel=n)` attributes the
warning to: `stacklevel = 1` is the frame issuing the warning (the head of
`inspect.stack()`), so level `n` is the entry at index `n - 1`; `none`
when the level points past the stack's end. -/
def attributedFrame (stack : List (Option String)) : Option (Option String) :=
  stack.get? (deprecationStackLevel stack - 1)

/-! ## Theorems -/

/-- Helper: the local recursion of `ReframeBaseError.__str__` agrees with
joining the chain's messages globally. -/
theorem strOf_eq_joinMessages : ∀ e : RfError,
    strOf e = joinMessages (chainMessages e)
  | .mk m none => by simp [strOf, chainMessages, joinMessages, pyJoin]
  | .mk m (some c) => by
      have ih := strOf_eq_joinMessages c
      cases c with
      | mk m2 c2 =>
          cases c2 <;>
            simp_all [strOf, chainMessages, joinMessages, pyJoin,
              String.append_assoc, String.append_empty]

/-- C2: `render` returns the error's own message (empty when the message
is absent), appends `": "` plus the cause's rendering whenever a cause is
present, composes over arbitrary finite chain depth (the chain renders as
its messages joined by `": "`), and an error with no message and no cause
renders as the empty string. -/
theorem render_cause_chain :
    (∀ (m : Option String) (c : RfError),
        strOf (.mk m (some c)) = orEmpty m ++ ": " ++ strOf c)
    ∧ (∀ m : Option String, strOf (.mk m none) = orEmpty m)
    ∧ strOf (.mk none none) = ""
    ∧ (∀ e : RfError, strOf e = joinMessages (chainMessages e)) := by
  refine ⟨fun m c => ?_, fun m => ?_, ?_, strOf_eq_joinMessages⟩
  · simp [strOf, String.append_assoc]
  · simp [strOf]
  · simp [strOf, orEmpty]

/-- Helper: the exact piece list of the `BuildError` message template. -/
theorem buildErrorTemplatePieces :
    templatePieces
        "standard error can be found in `%s', standard output can be found in `%s'" =
      ["standard error can be found in `",
       "', standard output can be found in `", "'"] := by decide

/-- C6: the `BuildError` message is synthesized from exactly the two path
arguments, the stderr path interpolated first and the stdout path second;
the constructor accepts no caller-supplied message. -/
theorem build_error_message_from_paths :
    ∀ stdout stderr : String,
      buildErrorMessage stdout stderr =
        "standard error can be found in `" ++ stderr ++
          "', standard output can be found in `" ++ stdout ++ "'" := by
  intro out err
  rw [buildErrorMessage, pyFormat, buildErrorTemplatePieces]
  simp [interleaveArgs, String.append_assoc, String.append_empty]

/-- C5 counterexample: with empty stdout the message still contains the
`=== STDOUT ===` marker line, so the claimed reading — the whole STDOUT
section omitted when stdout is empty — disagrees with the code already at
the spec's own example input (`"ls -l"`, stdout `""`, stderr
`"not found"`, exit code 2). -/
theorem spawned_message_claim_refuted :
    spawnedProcessMessage (.str "ls -l") "" "not found" (some 2) ≠
      spawnedMessageClaimed (.str "ls -l") "" "not found" (some 2) := by
  decide

/-- C5 (amended): the spawned-process message is the header naming the
command and exit code, then the `=== STDOUT ===` marker line (always
present) followed by the stdout text only when non-empty, then the
`=== STDERR ===` marker line (always present) followed by the stderr text
only when non-empty. -/
theorem spawned_message_sections :
    ∀ (args : CmdArgs) (stdout stderr : String) (exitcode : Option Int),
      spawnedProcessMessage args stdout stderr exitcode =
        "command '" ++ commandOf args ++ "' failed with exit code " ++
          showExitcode exitcode ++ ":" ++
        "\n" ++ "=== STDOUT ===" ++
        (if stdout = "" then "" else "\n" ++ stdout) ++
        "\n" ++ "=== STDERR ===" ++
        (if stderr = "" then "" else "\n" ++ stderr) := by
  intro args out err ec
  rcases eq_or_ne out "" with ho | ho <;> rcases eq_or_ne err "" with he | he <;>
    simp [spawnedProcessMessage, ho, he, pyJoin,
      String.append_assoc, String.append_empty, -String.reduceAppend]

/-- Helper: when every frame is a framework frame, the scan of
`user_frame` finds nothing. -/
theorem find?_user_none (sp : List String) (frames : List FrameInfo)
    (hall : ∀ f ∈ frames, isReframeFile sp f.filename = true) :
    frames.reverse.find? (fun f => !isReframeFile sp f.filename) = none := by
  rw [List.find?_eq_none]
  intro f hf
  simp [hall f (List.mem_reverse.mp hf)]

/-- C3: `user_frame` rejects a non-traceback input with the validation
error; on a traceback whose frames are all inside the framework it
returns `none`; and whenever the innermost-to-outermost listing
decomposes as framework frames followed by a non-framework frame, it
returns exactly that first non-framework frame. -/
theorem user_frame_walks_innermost_first :
    ∀ sysPath0 : List String,
      user_frame sysPath0 .notATraceback =
        .error "could not retrieve frame: argument not a traceback"
      ∧ ∀ frames : List FrameInfo,
          ((∀ f ∈ frames, isReframeFile sysPath0 f.filename = true) →
            user_frame sysPath0 (.traceback frames) = .ok none)
          ∧ ∀ (inner : List FrameInfo) (u : FrameInfo)
              (outer : List FrameInfo),
              frames.reverse = inner ++ u :: outer →
              (∀ f ∈ inner, isReframeFile sysPath0 f.filename = true) →
              isReframeFile sysPath0 u.filename = false →
              user_frame sysPath0 (.traceback frames) = .ok (some u) := by
  intro sp
  refine ⟨rfl, fun frames =>
    ⟨fun hall => ?_, fun inner u outer hrev hinner hu => ?_⟩⟩
  · simp only [user_frame, Except.ok.injEq]
    exact find?_user_none sp frames hall
  · simp only [user_frame, Except.ok.injEq]
    rw [hrev, List.find?_append]
    have h1 : inner.find? (fun f => !isReframeFile sp f.filename) = none := by
      rw [List.find?_eq_none]
      intro f hf
      simp [hinner f hf]
    rw [h1, List.find?_cons_of_pos]
    · rfl
    · simp [hu]

/-- C3 witness: an all-framework trace yields `none`; a trace whose
innermost-to-outermost listing is a framework frame, then a user frame,
then a framework frame yields that user frame. -/
theorem user_frame_walks_witness :
    user_frame ["opt", "rf"]
        (.traceback [⟨["opt", "rf", "reframe", "a.py"], 1, []⟩,
          ⟨["opt", "rf", "reframe", "b.py"], 2, []⟩]) = .ok none
    ∧ user_frame ["opt", "rf"]
        (.traceback [⟨["opt", "rf", "reframe", "a.py"], 1, []⟩,
          ⟨["home", "u", "t.py"], 3, []⟩,
          ⟨["opt", "rf", "reframe", "c.py"], 4, []⟩]) =
      .ok (some ⟨["home", "u", "t.py"], 3, []⟩) :=
  ⟨((user_frame_walks_innermost_first ["opt", "rf"]).2 _).1 (by decide),
   ((user_frame_walks_innermost_first ["opt", "rf"]).2 _).2
      [⟨["opt", "rf", "reframe", "c.py"], 4, []⟩]
      ⟨["home", "u", "t.py"], 3, []⟩
      [⟨["opt", "rf", "reframe", "a.py"], 1, []⟩]
      (by decide) (by decide) (by decide)⟩

/-- C1: for a type-mismatch or invalid-value error (never soft-classified
by the taxonomy), `is_severe` on a valid traceback answers `false`
exactly when `user_frame` attributes the error to a frame outside the
framework namespace; on an all-framework trace it answers `true`. -/
theorem is_severe_type_value_attribution :
    ∀ (sysPath0 : List String) (k : ExcKind) (frames : List FrameInfo),
      k = ExcKind.typeError ∨ k = ExcKind.valueError →
      ((is_severe sysPath0 k (.traceback frames) = .ok false ↔
          ∃ f, user_frame sysPath0 (.traceback frames) = .ok (some f))
        ∧ ((∀ f ∈ frames, isReframeFile sysPath0 f.filename = true) →
            is_severe sysPath0 k (.traceback frames) = .ok true)) := by
  intro sp k frames hk
  have hsoft : isSoftClassified k = false := by rcases hk with rfl | rfl <;> rfl
  have hbeq : (k == ExcKind.typeError || k == ExcKind.valueError) = true := by
    rcases hk with rfl | rfl <;> rfl
  constructor
  · rcases h : frames.reverse.find? (fun f => !isReframeFile sp f.filename)
      with _ | f <;>
      simp [is_severe, user_frame, hsoft, hbeq, h]
  · intro hall
    simp [is_severe, user_frame, hsoft, hbeq, find?_user_none sp frames hall]

/-- C1 witness: a `TypeError` whose trace has a user frame is not severe;
a `ValueError` whose trace is entirely framework frames is severe. -/
theorem is_severe_type_value_witness :
    is_severe ["opt", "rf"] .typeError
        (.traceback [⟨["opt", "rf", "reframe", "a.py"], 1, []⟩,
          ⟨["home", "u", "t.py"], 3, []⟩]) = .ok false
    ∧ is_severe ["opt", "rf"] .valueError
        (.traceback [⟨["opt", "rf", "reframe", "a.py"], 1, []⟩]) = .ok true :=
  ⟨(is_severe_type_value_attribution ["opt", "rf"] .typeError _
      (Or.inl rfl)).1.mpr ⟨⟨["home", "u", "t.py"], 3, []⟩, by decide⟩,
   (is_severe_type_value_attribution ["opt", "rf"] .valueError _
      (Or.inr rfl)).2 (by decide)⟩

/-- C4: every Soft-category kind and every one of the eight listed
OS-level conditions is classified not severe for *any* third argument —
even one that is not a traceback — because the soft check precedes the
stack walk. -/
theorem is_severe_soft_not_severe :
    ∀ (sysPath0 : List String) (k : ExcKind) (tb : PyTb),
      k ∈ softKinds → is_severe sysPath0 k tb = .ok false := by
  intro sp k tb hk
  have hs : isSoftClassified k = true := by revert hk; cases k <;> decide
  simp [is_severe, hs]

/-- C4 witness: a keyboard interrupt is not severe even when the stack
context is not a traceback at all. -/
theorem is_severe_soft_witness :
    is_severe [] .keyboardInterrupt .notATraceback = .ok false :=
  is_severe_soft_not_severe [] .keyboardInterrupt .notATraceback (by decide)

/-- C10: for every kind outside the soft list — the Fatal kind included —
`is_severe` reaches `user_frame` unconditionally, so a third argument
that is not a traceback raises the input-validation `ValueError` instead
of producing a verdict. -/
theorem is_severe_nonsoft_needs_traceback :
    ∀ (sysPath0 : List String) (k : ExcKind),
      k ∉ softKinds →
      is_severe sysPath0 k .notATraceback =
        .error "could not retrieve frame: argument not a traceback" := by
  intro sp k hk
  have hs : isSoftClassified k = false := by revert hk; cases k <;> decide
  simp [is_severe, hs, user_frame]

/-- C10 witness: the Fatal kind with a non-traceback third argument
raises the validation error. -/
theorem is_severe_nonsoft_witness :
    is_severe [] .reframeFatalError .notATraceback =
      .error "could not retrieve frame: argument not a traceback" :=
  is_severe_nonsoft_needs_traceback [] .reframeFatalError (by decide)

/-- C9: on any valid traceback, `what` for a user-cancellation
(keyboard-interrupt) exception returns exactly `"cancelled by user"` —
no kind-name prefix, no message suffix. -/
theorem what_keyboard_interrupt_fixed :
    ∀ (sysPath0 cwd : List String) (e : PyExcVal) (frames : List FrameInfo),
      e.kind = ExcKind.keyboardInterrupt →
      what sysPath0 cwd (some e) (.traceback frames) =
        .ok "cancelled by user" := by
  intro sp cwd e frames hk
  simp [what, user_frame, hk]

/-- C9 witness: a concrete keyboard interrupt, with a non-empty type name
and message available, still describes as exactly `"cancelled by user"`. -/
theorem what_keyboard_interrupt_witness :
    what ["opt", "rf"] ["home"]
        (some ⟨"KeyboardInterrupt", .keyboardInterrupt, "stop", "NoneType"⟩)
        (.traceback []) = .ok "cancelled by user" :=
  what_keyboard_interrupt_fixed ["opt", "rf"] ["home"]
    ⟨"KeyboardInterrupt", .keyboardInterrupt, "stop", "NoneType"⟩ [] rfl

/-- Helper: the stack level computed over leading framework frames
followed by a non-framework frame, and the entry at that level. -/
theorem stackLevel_append (fw : List (Option String)) (u : Option String)
    (rest : List (Option String))
    (hfw : ∀ m ∈ fw, isReframeModule m = true)
    (hu : isReframeModule u = false) :
    deprecationStackLevel (fw ++ u :: rest) = fw.length + 1
      ∧ (fw ++ u :: rest).get? fw.length = some u := by
  induction fw with
  | nil => simp [deprecationStackLevel, hu]
  | cons m fw ih =>
      have hm := hfw m (List.mem_cons_self m fw)
      have ih' := ih (fun x hx => hfw x (List.mem_cons_of_mem m hx))
      constructor
      · simp [deprecationStackLevel, hm, ih'.1]
      · rw [List.cons_append, List.length_cons, List.get?_cons_succ]
        exact ih'.2

/-- Helper: on an all-framework stack the computed level points one past
the stack's end. -/
theorem stackLevel_exhausted (stack : List (Option String))
    (hall : ∀ m ∈ stack, isReframeModule m = true) :
    deprecationStackLevel stack = stack.length + 1
      ∧ stack.get? stack.length = none := by
  induction stack with
  | nil => simp [deprecationStackLevel]
  | cons m rest ih =>
      have hm := hall m (List.mem_cons_self m rest)
      have ih' := ih (fun x hx => hall x (List.mem_cons_of_mem m hx))
      constructor
      · simp [deprecationStackLevel, hm, ih'.1]
      · rw [List.length_cons, List.get?_cons_succ]
        exact ih'.2

/-- C8: however many framework-internal frames lead the caller's stack,
the deprecation notice is attributed to the first frame whose module is
outside the framework namespace; when every frame is framework-internal
the attribution falls past the stack's end. -/
theorem deprecation_attributed_outside_framework :
    (∀ (fw : List (Option String)) (u : Option String)
        (rest : List (Option String)),
        (∀ m ∈ fw, isReframeModule m = true) →
        isReframeModule u = false →
        attributedFrame (fw ++ u :: rest) = some u)
    ∧ (∀ stack : List (Option String),
        (∀ m ∈ stack, isReframeModule m = true) →
        attributedFrame stack = none) := by
  constructor
  · intro fw u rest hfw hu
    have h := stackLevel_append fw u rest hfw hu
    rw [attributedFrame, h.1, Nat.add_sub_cancel]
    exact h.2
  · intro stack hall
    have h := stackLevel_exhausted stack hall
    rw [attributedFrame, h.1, Nat.add_sub_cancel]
    exact h.2

/-- C8 witness: two nested framework-internal frames above an external
caller attribute to the external caller's frame; an all-framework stack
attributes past its end. -/
theorem deprecation_attribution_witness :
    attributedFrame [some "reframe.core.warnings",
        some "reframe.core.pipeline", some "mytest", some "builtins"] =
      some (some "mytest")
    ∧ attributedFrame [some "reframe.core.warnings",
        some "reframe.utility"] = none :=
  ⟨deprecation_attributed_outside_framework.1
      [some "reframe.core.warnings", some "reframe.core.pipeline"]
      (some "mytest") [some "builtins"] (by decide) (by decide),
   deprecation_attributed_outside_framework.2
      [some "reframe.core.warnings", some "reframe.utility"] (by decide)⟩

/-- Helper: on the self-referential cause, the `__str__` recursion never
bottoms out — no amount of fuel produces a result. -/
theorem strFuel_selfCause :
    ∀ fuel : Nat, strFuel selfCauseHeap fuel 0 = none := by
  intro fuel
  induction fuel with
  | zero => rfl
  | succ n ih => simp [strFuel, selfCauseHeap, ih]

/-- Helper: on an acyclic chain laid out on the heap, fuel at least the
chain's length makes the heap rendering agree with joining the chain's
messages. -/
theorem strFuel_chainHeap :
    ∀ (fuel : Nat) (msgs : List (Option String)) (i : Nat),
      i < msgs.length → msgs.length - i ≤ fuel →
      strFuel (chainHeap msgs) fuel i =
        some (joinMessages ((msgs.drop i).map orEmpty)) := by
  intro fuel
  induction fuel with
  | zero => intro msgs i hi hf; omega
  | succ n ih =>
      intro msgs i hi hf
      have hget : msgs.get? i = some msgs[i] := by
        rw [List.get?_eq_getElem?, List.getElem?_eq_getElem hi]
      have hdrop : msgs.drop i = msgs[i] :: msgs.drop (i + 1) :=
        List.drop_eq_getElem_cons hi
      by_cases hlt : i + 1 < msgs.length
      · have hrec := ih msgs (i + 1) hlt (by omega)
        have hdrop2 : msgs.drop (i + 1) ≠ [] := by
          intro hnil
          have := List.length_drop (i + 1) msgs
          rw [hnil] at this
          simp at this
          omega
        obtain ⟨b, t, hbt⟩ := List.exists_cons_of_ne_nil hdrop2
        rw [strFuel]
        simp only [chainHeap, hget, hlt, if_true]
        rw [hrec, hdrop, hbt]
        simp [joinMessages, pyJoin, String.append_assoc]
      · have hdropnil : msgs.drop (i + 1) = [] := by
          rw [List.drop_eq_nil_iff]
          omega
        rw [strFuel]
        simp only [chainHeap, hget, if_neg hlt]
        rw [hdrop, hdropnil]
        simp [joinMessages, pyJoin]

/-- C7 counterexample: on an error whose cause is itself, the rendering
recursion of `__str__` terminates for no recursion bound — the code has
no defensive cycle guard and never rejects the input, so the claimed
fail-fast behaviour is absent. -/
theorem render_self_cause_never_fails_fast :
    ¬ ∃ fuel : Nat, (strFuel selfCauseHeap fuel 0).isSome = true := by
  rintro ⟨fuel, h⟩
  rw [strFuel_selfCause fuel] at h
  simp at h

/-- C7 (amended): `render` composes correctly to arbitrary finite chain
depth — any acyclic chain laid out on the heap renders, with enough
fuel, as its messages joined by `": "` — but on a self-referential cause
it recurses unboundedly instead of failing fast: no recursion bound
yields a result. -/
theorem render_unguarded_on_self_cause :
    (∀ fuel : Nat, strFuel selfCauseHeap fuel 0 = none)
    ∧ (∀ (msgs : List (Option String)) (fuel : Nat),
        msgs ≠ [] → msgs.length ≤ fuel →
        strFuel (chainHeap msgs) fuel 0 =
          some (joinMessages (msgs.map orEmpty))) := by
  refine ⟨strFuel_selfCause, fun msgs fuel hne hf => ?_⟩
  have h0 : 0 < msgs.length := List.length_pos.mpr hne
  simpa using strFuel_chainHeap fuel msgs 0 h0 (by omega)

/-- C7 witness: the self-referential cause renders to no result at a
concrete fuel, while a concrete two-element chain renders to its joined
messages. -/
theorem render_unguarded_witness :
    strFuel selfCauseHeap 9 0 = none
    ∧ strFuel (chainHeap [some "a", some "b"]) 2 0 =
      some (joinMessages ([some "a", some "b"].map orEmpty)) :=
  ⟨render_unguarded_on_self_cause.1 9,
   render_unguarded_on_self_cause.2 [some "a", some "b"] 2
      (by decide) (by decide)⟩

end Exc
